import Mathlib

/-!
Shallow embedding of the data-refresh pipeline of `app.py` (the
mapa_pa_usinas dashboard): the coordinate normalizer, the regional
bounding-box filter, the three dataset loaders with their on-disk
snapshot handling, and the retry-wrapped remote fetcher.

A pandas `DataFrame` is modelled as an ordered list of rows, a row as an
association list from column name to `Value` (string, rational number, or
null; pandas `NaN`/`None` are both modelled as `Value.null`). Machine
floats are modelled as rationals; the file I/O and user-visible
`st.error`/`st.warning` calls are modelled by explicit state passing.
-/

namespace MapaPaUsinas

/-- A cell of a dataframe: a string, a number (floats modelled as `ℚ`),
or a missing value (pandas `None`/`NaN` are merged into `null`). -/
inductive Value where
  | str (s : String)
  | num (q : ℚ)
  | null
  deriving DecidableEq, Repr

/-- A dataframe row: an association list from column name to value. -/
abbrev Row := List (String × Value)

/-- A dataframe: an ordered sequence of rows. -/
abbrev DataFrame := List Row

/-- Column access `r[c]`: the first entry with the given column name,
`null` if absent (the claims never exercise a genuinely missing column). -/
def getCol : Row → String → Value
  | [], _ => Value.null
  | p :: t, c => if p.1 = c then p.2 else getCol t c

/-- Does the row carry a column of the given name? -/
def hasColumn (r : Row) (c : String) : Bool :=
  r.any (fun p => decide (p.1 = c))

/-- Column assignment `df[c] = v` restricted to one row: replaces the
value of an existing column in place, otherwise appends the new column
at the end, as pandas does. -/
def setCol (r : Row) (c : String) (v : Value) : Row :=
  if hasColumn r c then
    r.map (fun p => if p.1 = c then (c, v) else p)
  else
    r ++ [(c, v)]

/-- Is the value missing? Models the pandas `isna` test used by `dropna`. -/
def Value.isNull : Value → Bool
  | .null => true
  | _ => false

/-! ## Numeric string parsing, the model of `pd.to_numeric(..., errors="coerce")` -/

/-- Numeric value of a decimal digit character. -/
def digitVal (c : Char) : Nat := c.toNat - 48

/-- Value of a block of decimal digit characters. -/
def digitsToNat (l : List Char) : Nat :=
  l.foldl (fun n c => 10 * n + digitVal c) 0

/-- Split a character list at the first decimal point, if any. -/
def splitDot : List Char → List Char × Option (List Char)
  | [] => ([], none)
  | c :: cs =>
    if c = '.' then ([], some cs)
    else
      let p := splitDot cs
      (c :: p.1, p.2)

/-- Strip one optional leading sign, returning the sign as `-1` or `1`. -/
def stripSign : List Char → Int × List Char
  | '-' :: cs => (-1, cs)
  | '+' :: cs => (1, cs)
  | cs => (1, cs)

/-- Parse an unsigned decimal mantissa `digits[.digits]` (at least one
digit in total, no second decimal point): the result `(n, k)` stands for
the rational `n / 10 ^ k`. -/
def parseMantissa (l : List Char) : Option (Nat × Nat) :=
  let p := splitDot l
  match p.2 with
  | none =>
    if p.1 ≠ [] ∧ p.1.all Char.isDigit then some (digitsToNat p.1, 0) else none
  | some frac =>
    if (p.1 ≠ [] ∨ frac ≠ []) ∧ p.1.all Char.isDigit ∧ frac.all Char.isDigit then
      some (digitsToNat p.1 * 10 ^ frac.length + digitsToNat frac, frac.length)
    else none

/-- Split a character list at the first exponent marker `e`/`E`, if any. -/
def splitExp : List Char → List Char × Option (List Char)
  | [] => ([], none)
  | c :: cs =>
    if c = 'e' ∨ c = 'E' then ([], some cs)
    else
      let p := splitExp cs
      (c :: p.1, p.2)

/-- Parse a decimal floating-point literal `[sign]digits[.digits][e[sign]digits]`;
`none` on anything unparsable. Models the parse done by
`pd.to_numeric(..., errors="coerce")` on a string cell. -/
def parseNumQ (s : String) : Option ℚ :=
  let l := (s.toList.dropWhile (fun c => c = ' ')).reverse.dropWhile (fun c => c = ' ') |>.reverse
  let sg := stripSign l
  let sp := splitExp sg.2
  match parseMantissa sp.1 with
  | none => none
  | some nk =>
    match sp.2 with
    | none => some (mkRat (sg.1 * (nk.1 : Int)) (10 ^ nk.2))
    | some ex =>
      let esg := stripSign ex
      if esg.2 ≠ [] ∧ esg.2.all Char.isDigit then
        let e := digitsToNat esg.2
        if esg.1 = 1 then some (mkRat (sg.1 * (nk.1 : Int) * ((10 ^ e : Nat) : Int)) (10 ^ nk.2))
        else some (mkRat (sg.1 * (nk.1 : Int)) (10 ^ (nk.2 + e)))
      else none

/-- Replace every comma of a string by a period; since the pattern is a
single character this charwise map is exactly `String.replace s "," "."`. -/
def replaceCommaDot (s : String) : String :=
  String.mk (s.toList.map (fun c => if c = ',' then '.' else c))

/-- The pandas `Series.str.replace(",", ".")` applied to one cell:
string cells have every comma replaced by a period, anything else
(including a missing value) becomes missing. -/
def strReplaceCommaDot : Value → Value
  | .str s => .str (replaceCommaDot s)
  | _ => .null

/-- One cell of `pd.to_numeric(..., errors="coerce")`: numbers pass
through, strings are parsed (unparsable becomes missing), missing stays
missing. -/
def toNumeric : Value → Value
  | .num q => .num q
  | .str s =>
    match parseNumQ s with
    | some q => .num q
    | none => .null
  | .null => .null

/-! ## Coordinate normalizer `process_coordinates` -/

/-- The column assignments performed by `process_coordinates` on one row:
`df["latitude"] = pd.to_numeric(df["lat_str"].str.replace(",", "."), errors="coerce")`
and the same for `longitude` from `lng_str`. -/
def assignCoordCols (r : Row) : Row :=
  setCol (setCol r "latitude" (toNumeric (strReplaceCommaDot (getCol r "lat_str"))))
    "longitude" (toNumeric (strReplaceCommaDot (getCol r "lng_str")))

/-- Model of `df.dropna(subset=["latitude", "longitude"])`: keep the rows
where both coordinate columns are non-missing. -/
def dropnaLatLng (df : DataFrame) : DataFrame :=
  df.filter (fun r => !(getCol r "latitude").isNull && !(getCol r "longitude").isNull)

/-- The state of the dataframe object passed to `process_coordinates`
after the call: the two column assignments mutate the argument in place. -/
def process_coordinates_argAfter (df : DataFrame) : DataFrame :=
  df.map assignCoordCols

/-- The return value of `process_coordinates`: assign the parsed
`latitude`/`longitude` columns, then return
`df.dropna(subset=["latitude", "longitude"]).copy()`. -/
def process_coordinates (df : DataFrame) : DataFrame :=
  dropnaLatLng (process_coordinates_argAfter df)

/-! ## Regional filter `filter_usinas_by_region` -/

/-- Model of `Series.between(lo, hi)` on one cell: inclusive range test,
false on anything that is not a number (pandas comparisons with `NaN`
are false). -/
def vBetween (v : Value) (lo hi : ℚ) : Bool :=
  match v with
  | .num q => decide (lo ≤ q) && decide (q ≤ hi)
  | _ => false

/-- The row-wise boolean mask of `filter_usinas_by_region`: inside the
North box (`latitude.between(-5.0, 5.0) & longitude.between(-75.0, -60.0)`)
or inside the Northeast box
(`latitude.between(-18.0, -5.0) & longitude.between(-75.0, -34.0)`). -/
def regionMask (r : Row) : Bool :=
  (vBetween (getCol r "latitude") (-5) 5 && vBetween (getCol r "longitude") (-75) (-60))
    || (vBetween (getCol r "latitude") (-18) (-5) && vBetween (getCol r "longitude") (-75) (-34))

/-- The regional filter `filter_usinas_by_region`: keep the rows whose
coordinates lie in the North or the Northeast bounding box. -/
def filter_usinas_by_region (df : DataFrame) : DataFrame :=
  df.filter regionMask

/-! ## Files, user-visible messages, and the three dataset loaders -/

/-- The content of one on-disk file: absent, present but failing to
deserialize (read raises), or present with a clean dataframe. -/
inductive FileState where
  | absent
  | corrupt
  | good (df : DataFrame)
  deriving DecidableEq, Repr

/-- Model of `Path.exists()`. -/
def FileState.fileExists : FileState → Bool
  | .absent => false
  | _ => true

/-- The on-disk state the loaders touch: the ANEEL parquet cache, the
franchise parquet snapshot, the franchise source CSV, and the usina
source CSV. -/
structure World where
  aneelCache : FileState
  franchiseData : FileState
  franchiseInput : FileState
  usinaInput : FileState
  deriving DecidableEq, Repr

/-- Message of `st.warning` for a corrupt ANEEL cache (the dynamic
exception text of the f-string is elided). -/
def warnAneelCache : String := "Cache ANEEL inválido, recriando...: "

/-- Message of `st.error` when the fetched ANEEL frame is empty. -/
def errAneelEmpty : String := "Dados da ANEEL estão vazios."

/-- Message of `st.error` inside the except clause of `fetch_aneel`. -/
def errAneelApi : String := "Erro na API ANEEL: "

/-- Message of `st.error` for a corrupt franchise parquet snapshot. -/
def errFranchiseParquet : String := "Erro ao carregar dados de franquias: "

/-- Message of `st.error` when reading the franchise CSV raises. -/
def errFranchiseCsv : String := "Erro ao carregar franquias do CSV: "

/-- Message of `st.error` when reading the usina CSV raises. -/
def errUsinaCsv : String := "Erro ao carregar usinas do CSV: "

/-- Message of `st.error` when the usina source file is absent. -/
def errUsinaMissing : String := "Arquivo de usinas não encontrado."

/-- Result of one run of `load_franchise_data`: the returned frame, the
file system afterwards, the surfaced messages in order, and whether the
source CSV was read. -/
structure FranchiseResult where
  df : DataFrame
  world : World
  errors : List String
  readSource : Bool
  deriving DecidableEq, Repr

/-- The source-CSV branch of `load_franchise_data`: read the CSV, drop
rows missing latitude or longitude, persist the snapshot and return it;
a raising read surfaces an error; an absent file falls through to
`return pd.DataFrame()` with no message. -/
def loadFranchiseFromCsv (w : World) (errs : List String) : FranchiseResult :=
  match w.franchiseInput with
  | .good df =>
    let kept := dropnaLatLng df
    ⟨kept, { w with franchiseData := .good kept }, errs, true⟩
  | .corrupt => ⟨[], w, errs ++ [errFranchiseCsv], true⟩
  | .absent => ⟨[], w, errs, false⟩

/-- The franchise loader `load_franchise_data`: return the parquet
snapshot if it exists and reads cleanly; a raising read surfaces an
error and falls through to the source-CSV branch, as does an absent
snapshot. -/
def load_franchise_data (w : World) : FranchiseResult :=
  match w.franchiseData with
  | .good df => ⟨df, w, [], false⟩
  | .corrupt => loadFranchiseFromCsv w [errFranchiseParquet]
  | .absent => loadFranchiseFromCsv w []

/-- Result of one run of `load_usina_data` (this loader writes no file):
the returned frame and the surfaced messages in order. -/
structure UsinaResult where
  df : DataFrame
  errors : List String
  deriving DecidableEq, Repr

/-- The plant loader `load_usina_data`: read the source CSV, drop rows
missing coordinates, apply the regional filter; a raising read surfaces
an error and control then also reaches the file-not-found error; an
absent file surfaces the file-not-found error; both return an empty
frame. -/
def load_usina_data (w : World) : UsinaResult :=
  match w.usinaInput with
  | .good df => ⟨filter_usinas_by_region (dropnaLatLng df), []⟩
  | .corrupt => ⟨[], [errUsinaCsv, errUsinaMissing]⟩
  | .absent => ⟨[], [errUsinaMissing]⟩

/-- Result of one run of `load_aneel_data`: the returned frame, the file
system afterwards, the surfaced messages in order, and whether
`fetch_aneel` was called. -/
structure AneelResult where
  df : DataFrame
  world : World
  errors : List String
  fetchCalled : Bool
  deriving DecidableEq, Repr

/-- The tail of `load_aneel_data` after `df = fetch_aneel()`: if the
fetched frame is non-empty, normalize it, persist it to the ANEEL cache
and return it; otherwise surface an error and return the empty frame,
leaving the cache untouched. -/
def aneelAfterFetch (w : World) (errs : List String) (fetched : DataFrame) : AneelResult :=
  if fetched.isEmpty then
    ⟨[], w, errs ++ [errAneelEmpty], true⟩
  else
    let p := process_coordinates fetched
    ⟨p, { w with aneelCache := .good p }, errs, true⟩

/-- The registry loader `load_aneel_data`, parameterized by the frame the
remote fetch would produce: return the parquet cache if it exists and
reads cleanly; a raising read surfaces a warning and falls through to
the fetch path, as does an absent cache. -/
def load_aneel_data (w : World) (fetched : DataFrame) : AneelResult :=
  match w.aneelCache with
  | .good df => ⟨df, w, [], false⟩
  | .corrupt => aneelAfterFetch w [warnAneelCache] fetched
  | .absent => aneelAfterFetch w [] fetched

/-! ## Remote fetcher `fetch_aneel` and its tenacity retry wrapper -/

/-- Outcome of one underlying HTTP attempt: a network-layer failure (any
`requests.exceptions.RequestException`, including a bad status raised by
`raise_for_status`), or a successful response carrying `result.records`. -/
inductive RequestOutcome where
  | netFail
  | success (records : DataFrame)

/-- One execution of the body of `fetch_aneel`: the try block catches
every `RequestException`, surfaces an error and returns an empty frame,
so the body returns normally (never raises) on a network failure; on
success it returns the records as a frame. -/
def fetch_aneel_body (o : RequestOutcome) : Except Unit DataFrame × List String :=
  match o with
  | .netFail => (Except.ok [], [errAneelApi])
  | .success recs => (Except.ok recs, [])

/-- The tenacity `retry(stop=stop_after_attempt(n))` wrapper: run the
body; a normal return ends the loop, a raised exception is retried until
the attempt budget is spent and then propagates. Returns the outcome,
the number of attempts made, and the surfaced messages. -/
def retryRun {α : Type} (body : Nat → Except Unit α × List String) :
    Nat → Nat → List String → Except Unit α × Nat × List String
  | 0, done, errs => (Except.error (), done, errs)
  | fuel + 1, done, errs =>
    let r := body done
    match r.1 with
    | .ok a => (.ok a, done + 1, errs ++ r.2)
    | .error e =>
      if fuel = 0 then (.error e, done + 1, errs ++ r.2)
      else retryRun body fuel (done + 1) (errs ++ r.2)

/-- The decorated `fetch_aneel`, parameterized by the outcome of each
underlying HTTP attempt: the retry wrapper with an attempt budget of 3
around the exception-swallowing body. -/
def fetch_aneel (env : Nat → RequestOutcome) : Except Unit DataFrame × Nat × List String :=
  retryRun (fun i => fetch_aneel_body (env i)) 3 0 []

/-! ## The fixed query descriptor -/

/-- The endpoint URL `Config.ANEEL_URL`. -/
def ANEEL_URL : String :=
  "https://dadosabertos.aneel.gov.br/api/3/action/datastore_search_sql"

/-- The fixed SQL string `Config.ANEEL_QUERY`, byte for byte as the
Python triple-quoted literal. -/
def ANEEL_QUERY : String :=
  "\n    SELECT \"NomMunicipio\", \"SigUF\", \"NomRegiao\",\n           \"NumCoordNEmpreendimento\" AS lat_str,\n           \"NumCoordEEmpreendimento\" AS lng_str\n    FROM \"b1bd71e7-d0ad-4214-9053-cbd58e9564a7\"\n    WHERE \n      \"SigUF\" = \x27PA\x27\n      AND \"NumCoordNEmpreendimento\" IS NOT NULL\n    LIMIT 80000\n    "

/-- An HTTP request as issued by `requests.get(url, params=..., timeout=...)`. -/
structure HttpRequest where
  method : String
  url : String
  params : List (String × String)
  timeout : Nat
  deriving DecidableEq, Repr

/-- The fixed request `fetch_aneel` issues on every attempt. -/
def aneelRequest : HttpRequest :=
  { method := "GET", url := ANEEL_URL, params := [("sql", ANEEL_QUERY)], timeout := 10 }

/-- Does the pattern lead the haystack character by character? -/
def leadsWith : List Char → List Char → Bool
  | [], _ => true
  | _ :: _, [] => false
  | p :: ps, h :: hs => p = h && leadsWith ps hs

/-- Does the pattern occur contiguously anywhere in the haystack? -/
def hasSub (pat : List Char) : List Char → Bool
  | [] => leadsWith pat []
  | h :: hs => leadsWith pat (h :: hs) || hasSub pat hs

/-- Substring test on strings. -/
def strContains (hay pat : String) : Bool :=
  hasSub pat.toList hay.toList

/-! ## Concrete worlds and frames used by the scenario claims -/

/-- A world in which no file exists at all. -/
def emptyWorld : World :=
  { aneelCache := .absent, franchiseData := .absent
    franchiseInput := .absent, usinaInput := .absent }

/-- A franchise CSV row with a display name and two coordinate cells. -/
def franchiseRow (name : String) (lat lng : Value) : Row :=
  [("Franquia", .str name), ("latitude", lat), ("longitude", lng)]

/-- The five-row franchise source file of the end-to-end scenario: row F3
is missing its longitude. -/
def franchiseCsv : DataFrame :=
  [franchiseRow "F1" (.num (mkRat (-3) 2)) (.num (-62)),
   franchiseRow "F2" (.num 2) (.num (-63)),
   franchiseRow "F3" (.num 3) .null,
   franchiseRow "F4" (.num (-10)) (.num (-40)),
   franchiseRow "F5" (.num 1) (.num (-70))]

/-- The four rows of `franchiseCsv` having both coordinates. -/
def franchiseKept : DataFrame :=
  [franchiseRow "F1" (.num (mkRat (-3) 2)) (.num (-62)),
   franchiseRow "F2" (.num 2) (.num (-63)),
   franchiseRow "F4" (.num (-10)) (.num (-40)),
   franchiseRow "F5" (.num 1) (.num (-70))]

/-- A world with no snapshots and only the franchise source CSV. -/
def franchiseWorld : World :=
  { aneelCache := .absent, franchiseData := .absent
    franchiseInput := .good franchiseCsv, usinaInput := .absent }

/-- A one-row raw ANEEL frame whose coordinate strings use the decimal
comma, used to exhibit the in-place column assignments. -/
def mutationDemo : DataFrame :=
  [[("lat_str", Value.str "1,5"), ("lng_str", Value.str "-60")]]

/-- A raw ANEEL record as the remote endpoint returns it: the fields of
the fixed query, with comma-decimal coordinate strings. -/
def aneelRawRow : Row :=
  [("NomMunicipio", Value.str "Belém"), ("SigUF", Value.str "PA"),
   ("NomRegiao", Value.str "Norte"), ("lat_str", Value.str "-1,45"),
   ("lng_str", Value.str "-48,49")]

/-- A one-row raw ANEEL frame. -/
def aneelRaw : DataFrame := [aneelRawRow]

/-- A raw row whose latitude string does not parse even after the comma
replacement. -/
def badCoordRow : Row :=
  [("lat_str", Value.str "abc"), ("lng_str", Value.str "-60")]

/-- A one-row frame around `badCoordRow`. -/
def badCoordDf : DataFrame := [badCoordRow]

/-- The North-box boundary row of the spec: latitude exactly 5.0 and
longitude exactly -60.0. -/
def boundaryRow : Row := [("latitude", Value.num 5), ("longitude", Value.num (-60))]

/-- A row just past the inclusive boundary: latitude 5.0001. -/
def overRow : Row :=
  [("latitude", Value.num (mkRat 50001 10000)), ("longitude", Value.num (-60))]

/-- Attempt outcomes in which the HTTP request fails on the first two
attempts and succeeds on the third. -/
def envFailFailSuccess : Nat → RequestOutcome :=
  fun i => if i < 2 then .netFail else .success aneelRaw

deriving instance DecidableEq for Except

/-! ## Lemmas about column access and assignment -/

set_option maxRecDepth 100000

theorem getCol_mapReplace_same (r : Row) (c : String) (v : Value)
    (h : hasColumn r c = true) :
    getCol (r.map (fun p => if p.1 = c then (c, v) else p)) c = v := by
  induction r with
  | nil => simp [hasColumn] at h
  | cons p t ih =>
    by_cases hp : p.1 = c
    · simp [getCol, hp]
    · simp only [hasColumn, List.any_cons, Bool.or_eq_true, decide_eq_true_eq] at h
      rcases h with h | h
      · exact absurd h hp
      · simp only [List.map_cons, if_neg hp, getCol, if_neg hp]
        exact ih (by simpa [hasColumn] using h)

theorem getCol_mapReplace_other (r : Row) (c c' : String) (v : Value) (h : c' ≠ c) :
    getCol (r.map (fun p => if p.1 = c then (c, v) else p)) c' = getCol r c' := by
  induction r with
  | nil => rfl
  | cons p t ih =>
    by_cases hp : p.1 = c
    · simp only [List.map_cons, if_pos hp, getCol]
      rw [if_neg (show ¬(c, v).1 = c' from Ne.symm h),
        if_neg (show ¬p.1 = c' by rw [hp]; exact Ne.symm h)]
      exact ih
    · by_cases hq : p.1 = c'
      · simp only [List.map_cons, if_neg hp, getCol, if_pos hq]
      · simp only [List.map_cons, if_neg hp, getCol, if_neg hq]
        exact ih

theorem getCol_append_one_same (r : Row) (c : String) (v : Value)
    (h : hasColumn r c = false) :
    getCol (r ++ [(c, v)]) c = v := by
  induction r with
  | nil => simp [getCol]
  | cons p t ih =>
    simp only [hasColumn, List.any_cons, Bool.or_eq_false_iff, decide_eq_false_iff_not] at h
    simp only [List.cons_append, getCol, if_neg h.1]
    exact ih (by simpa [hasColumn] using h.2)

theorem getCol_append_one_other (r : Row) (c c' : String) (v : Value) (h : c' ≠ c) :
    getCol (r ++ [(c, v)]) c' = getCol r c' := by
  induction r with
  | nil => simp [getCol, Ne.symm h]
  | cons p t ih =>
    by_cases hq : p.1 = c'
    · simp only [List.cons_append, getCol, if_pos hq]
    · simp only [List.cons_append, getCol, if_neg hq]
      exact ih

theorem getCol_setCol_same (r : Row) (c : String) (v : Value) :
    getCol (setCol r c v) c = v := by
  by_cases h : hasColumn r c = true
  · simp only [setCol, h, if_true]
    exact getCol_mapReplace_same r c v h
  · have h' : hasColumn r c = false := by simpa using h
    simp only [setCol, h', Bool.false_eq_true, if_false]
    exact getCol_append_one_same r c v h'

theorem getCol_setCol_other (r : Row) (c c' : String) (v : Value) (h : c' ≠ c) :
    getCol (setCol r c v) c' = getCol r c' := by
  by_cases ha : hasColumn r c = true
  · simp only [setCol, ha, if_true]
    exact getCol_mapReplace_other r c c' v h
  · have h' : hasColumn r c = false := by simpa using ha
    simp only [setCol, h', Bool.false_eq_true, if_false]
    exact getCol_append_one_other r c c' v h

theorem getCol_assign_lat (r : Row) :
    getCol (assignCoordCols r) "latitude"
      = toNumeric (strReplaceCommaDot (getCol r "lat_str")) := by
  unfold assignCoordCols
  rw [getCol_setCol_other _ _ _ _ (by decide), getCol_setCol_same]

theorem getCol_assign_lng (r : Row) :
    getCol (assignCoordCols r) "longitude"
      = toNumeric (strReplaceCommaDot (getCol r "lng_str")) := by
  unfold assignCoordCols
  rw [getCol_setCol_same]

theorem toNumeric_num_or_null (v : Value) :
    (∃ q, toNumeric v = .num q) ∨ toNumeric v = .null := by
  cases v with
  | str s =>
    cases h : parseNumQ s with
    | none => exact .inr (by simp [toNumeric, h])
    | some q => exact .inl ⟨q, by simp [toNumeric, h]⟩
  | num q => exact .inl ⟨q, rfl⟩
  | null => exact .inr rfl

/-! ## The claims -/

/-- C1: the claim says `fetch_aneel` makes exactly 3 attempts, returning
the successful result when the third attempt succeeds and an empty set
when all fail. The code contradicts its own `retry(stop_after_attempt(3))`
decorator: the except clause inside the decorated body swallows every
`RequestException`, so the body returns normally (with an empty frame)
on its first network failure, the wrapper sees no exception, and exactly
one attempt is made in both scenarios. The last conjunct shows the
wrapper itself would indeed run 3 attempts if the body let the failure
propagate. -/
theorem C1_fetch_aneel_one_attempt :
    fetch_aneel envFailFailSuccess = (Except.ok [], 1, [errAneelApi])
    ∧ fetch_aneel (fun _ => RequestOutcome.netFail) = (Except.ok [], 1, [errAneelApi])
    ∧ (retryRun
        (fun i => if i < 2 then (Except.error (), [errAneelApi]) else (Except.ok aneelRaw, []))
        3 0 []).2.1 = 3 := by
  refine ⟨by decide, by decide, by decide⟩

/-- C2: the registry loader `load_aneel_data` returns the cached frame
without fetching when the snapshot reads cleanly; when the snapshot is
absent or fails to deserialize it falls through (no propagated failure)
to fetching, and a non-empty fetch is normalized and persisted to the
cache; an empty fetch surfaces an error and the empty frame is
returned. -/
theorem C2_registry_loader_cache_or_fetch :
    (∀ (w : World) (fetched df : DataFrame), w.aneelCache = .good df →
      load_aneel_data w fetched = ⟨df, w, [], false⟩)
    ∧ (∀ (w : World) (fetched : DataFrame),
        (w.aneelCache = .absent ∨ w.aneelCache = .corrupt) → fetched ≠ [] →
        (load_aneel_data w fetched).fetchCalled = true
        ∧ (load_aneel_data w fetched).df = process_coordinates fetched
        ∧ (load_aneel_data w fetched).world.aneelCache = .good (process_coordinates fetched))
    ∧ (∀ (w : World) (fetched : DataFrame),
        (w.aneelCache = .absent ∨ w.aneelCache = .corrupt) → fetched = [] →
        (load_aneel_data w fetched).fetchCalled = true
        ∧ (load_aneel_data w fetched).df = []
        ∧ errAneelEmpty ∈ (load_aneel_data w fetched).errors) := by
  refine ⟨?_, ?_, ?_⟩
  · intro w fetched df h
    simp [load_aneel_data, h]
  · intro w fetched hc hne
    cases fetched with
    | nil => exact absurd rfl hne
    | cons a t =>
      rcases hc with h | h <;> simp [load_aneel_data, h, aneelAfterFetch]
  · intro w fetched hc he
    subst he
    rcases hc with h | h <;> simp [load_aneel_data, h, aneelAfterFetch]

/-- Witness for C2 at concrete worlds: a good cache is returned as is
with no fetch; an absent cache with a non-empty fetch persists and
returns the normalized frame; an absent cache with an empty fetch
surfaces the error and returns the empty frame. -/
theorem C2_registry_loader_cache_or_fetch_witness :
    load_aneel_data { emptyWorld with aneelCache := .good aneelRaw } []
      = ⟨aneelRaw, { emptyWorld with aneelCache := .good aneelRaw }, [], false⟩
    ∧ ((load_aneel_data emptyWorld aneelRaw).fetchCalled = true
        ∧ (load_aneel_data emptyWorld aneelRaw).df = process_coordinates aneelRaw
        ∧ (load_aneel_data emptyWorld aneelRaw).world.aneelCache
            = .good (process_coordinates aneelRaw))
    ∧ ((load_aneel_data emptyWorld []).fetchCalled = true
        ∧ (load_aneel_data emptyWorld []).df = []
        ∧ errAneelEmpty ∈ (load_aneel_data emptyWorld []).errors) :=
  ⟨C2_registry_loader_cache_or_fetch.1 _ [] aneelRaw rfl,
   C2_registry_loader_cache_or_fetch.2.1 emptyWorld aneelRaw (Or.inl rfl) (by decide),
   C2_registry_loader_cache_or_fetch.2.2 emptyWorld [] (Or.inl rfl) rfl⟩

/-- C3: with no snapshot and a 5-row source file of which one row lacks
its longitude, the first franchise load returns exactly the 4 complete
rows, reads the source, and persists a 4-row snapshot; the second call
returns the same 4 rows from the snapshot without reading the source
file. -/
theorem C3_franchise_five_row_scenario :
    load_franchise_data franchiseWorld
      = ⟨franchiseKept, { franchiseWorld with franchiseData := .good franchiseKept }, [], true⟩
    ∧ franchiseCsv.length = 5
    ∧ franchiseKept.length = 4
    ∧ load_franchise_data (load_franchise_data franchiseWorld).world
      = ⟨franchiseKept, { franchiseWorld with franchiseData := .good franchiseKept }, [], false⟩ := by
  decide

/-- C4: the regional filter keeps a row exactly when its mask holds; on
numeric coordinates the mask is the inclusive North box
(latitude in [-5, 5], longitude in [-75, -60]) or the inclusive
Northeast box (latitude in [-18, -5], longitude in [-75, -34]); the
boundary row (5, -60) is retained and a row at latitude 5.0001 is
dropped. -/
theorem C4_regional_filter_boxes :
    (∀ (df : DataFrame) (r : Row),
      r ∈ filter_usinas_by_region df ↔ r ∈ df ∧ regionMask r = true)
    ∧ (∀ (r : Row) (lat lng : ℚ),
        getCol r "latitude" = Value.num lat → getCol r "longitude" = Value.num lng →
        (regionMask r = true ↔
          ((-5 ≤ lat ∧ lat ≤ 5) ∧ (-75 ≤ lng ∧ lng ≤ -60))
          ∨ ((-18 ≤ lat ∧ lat ≤ -5) ∧ (-75 ≤ lng ∧ lng ≤ -34))))
    ∧ regionMask boundaryRow = true
    ∧ regionMask overRow = false := by
  refine ⟨?_, ?_, by decide, by decide⟩
  · intro df r
    simp [filter_usinas_by_region, List.mem_filter]
  · intro r lat lng h1 h2
    simp [regionMask, vBetween, h1, h2, and_assoc]

/-- Witness for C4 at the boundary row. -/
theorem C4_regional_filter_boxes_witness :
    (boundaryRow ∈ filter_usinas_by_region [boundaryRow]
      ↔ boundaryRow ∈ [boundaryRow] ∧ regionMask boundaryRow = true)
    ∧ (regionMask boundaryRow = true ↔
        ((-5 ≤ (5 : ℚ) ∧ (5 : ℚ) ≤ 5) ∧ (-75 ≤ (-60 : ℚ) ∧ (-60 : ℚ) ≤ -60))
        ∨ ((-18 ≤ (5 : ℚ) ∧ (5 : ℚ) ≤ -5) ∧ (-75 ≤ (-60 : ℚ) ∧ (-60 : ℚ) ≤ -34))) :=
  ⟨C4_regional_filter_boxes.1 [boundaryRow] boundaryRow,
   C4_regional_filter_boxes.2.1 boundaryRow 5 (-60) (by decide) (by decide)⟩

/-- C5: every row of the normalizer output carries both coordinates as
numbers; its values are obtained from the raw strings by comma-to-period
replacement followed by numeric parsing; and a source row whose
replaced string fails to parse (becoming null) is dropped. -/
theorem C5_normalizer_both_or_absent :
    (∀ (df : DataFrame) (r : Row), r ∈ process_coordinates df →
      ∃ r₀ ∈ df, r = assignCoordCols r₀
        ∧ getCol r "latitude" = toNumeric (strReplaceCommaDot (getCol r₀ "lat_str"))
        ∧ getCol r "longitude" = toNumeric (strReplaceCommaDot (getCol r₀ "lng_str"))
        ∧ (∃ a, getCol r "latitude" = Value.num a)
        ∧ (∃ b, getCol r "longitude" = Value.num b))
    ∧ (∀ (df : DataFrame) (r₀ : Row), r₀ ∈ df →
        (toNumeric (strReplaceCommaDot (getCol r₀ "lat_str")) = Value.null
          ∨ toNumeric (strReplaceCommaDot (getCol r₀ "lng_str")) = Value.null) →
        assignCoordCols r₀ ∉ process_coordinates df) := by
  constructor
  · intro df r hr
    simp only [process_coordinates, dropnaLatLng, process_coordinates_argAfter] at hr
    rw [List.mem_filter] at hr
    obtain ⟨hmem, hkeep⟩ := hr
    rw [List.mem_map] at hmem
    obtain ⟨r₀, hr₀, rfl⟩ := hmem
    simp only [Bool.and_eq_true, Bool.not_eq_true'] at hkeep
    refine ⟨r₀, hr₀, rfl, getCol_assign_lat r₀, getCol_assign_lng r₀, ?_, ?_⟩
    · rcases toNumeric_num_or_null (strReplaceCommaDot (getCol r₀ "lat_str")) with ⟨q, hq⟩ | hq
      · exact ⟨q, (getCol_assign_lat r₀).trans hq⟩
      · exfalso
        have hn := hkeep.1
        rw [getCol_assign_lat r₀, hq] at hn
        simp [Value.isNull] at hn
    · rcases toNumeric_num_or_null (strReplaceCommaDot (getCol r₀ "lng_str")) with ⟨q, hq⟩ | hq
      · exact ⟨q, (getCol_assign_lng r₀).trans hq⟩
      · exfalso
        have hn := hkeep.2
        rw [getCol_assign_lng r₀, hq] at hn
        simp [Value.isNull] at hn
  · intro df r₀ hmem hnull hin
    simp only [process_coordinates, dropnaLatLng, process_coordinates_argAfter] at hin
    rw [List.mem_filter] at hin
    have hkeep := hin.2
    simp only [Bool.and_eq_true, Bool.not_eq_true'] at hkeep
    rcases hnull with h | h
    · have hn := hkeep.1
      rw [getCol_assign_lat r₀, h] at hn
      simp [Value.isNull] at hn
    · have hn := hkeep.2
      rw [getCol_assign_lng r₀, h] at hn
      simp [Value.isNull] at hn

/-- Witness for C5: the parsed ANEEL row is in the output with both
numeric coordinates; the unparsable row is dropped. -/
theorem C5_normalizer_both_or_absent_witness :
    (∃ r₀ ∈ aneelRaw, assignCoordCols aneelRawRow = assignCoordCols r₀
      ∧ getCol (assignCoordCols aneelRawRow) "latitude"
          = toNumeric (strReplaceCommaDot (getCol r₀ "lat_str"))
      ∧ getCol (assignCoordCols aneelRawRow) "longitude"
          = toNumeric (strReplaceCommaDot (getCol r₀ "lng_str"))
      ∧ (∃ a, getCol (assignCoordCols aneelRawRow) "latitude" = Value.num a)
      ∧ (∃ b, getCol (assignCoordCols aneelRawRow) "longitude" = Value.num b))
    ∧ assignCoordCols badCoordRow ∉ process_coordinates badCoordDf :=
  ⟨C5_normalizer_both_or_absent.1 aneelRaw (assignCoordCols aneelRawRow) (by decide),
   C5_normalizer_both_or_absent.2 badCoordDf badCoordRow (by decide) (Or.inl (by decide))⟩

/-- C6 counterexample: the claim says `process_coordinates` does not
modify its input, but the two column assignments mutate the argument
frame in place; on a one-row frame the argument afterwards carries the
new `latitude`/`longitude` columns and so differs from the input. -/
theorem C6_normalizer_mutates_input :
    process_coordinates_argAfter mutationDemo ≠ mutationDemo := by decide

/-- C6 amended: `process_coordinates` is total and order-preserving (its
return value is a sublist of the per-row-converted input, hence kept
rows stay in input order, and at most all rows are dropped), but it does
mutate its argument by assigning the parsed coordinate columns in
place. -/
theorem C6_normalizer_total_order_preserving :
    ∀ df : DataFrame,
      (process_coordinates df).Sublist (process_coordinates_argAfter df)
      ∧ (process_coordinates df).length ≤ df.length
      ∧ (process_coordinates_argAfter df).length = df.length := by
  intro df
  refine ⟨List.filter_sublist _, ?_, List.length_map _ _⟩
  exact le_trans (List.length_filter_le _ _) (le_of_eq (List.length_map _ _))

/-- C7: the regional filter is idempotent: filtering an already filtered
frame returns it unchanged, same rows in the same order. -/
theorem C7_regional_filter_idempotent :
    ∀ df : DataFrame,
      filter_usinas_by_region (filter_usinas_by_region df) = filter_usinas_by_region df := by
  intro df
  simp [filter_usinas_by_region, List.filter_filter]

/-- C8 counterexample: with neither snapshot nor source CSV present the
franchise loader returns the empty frame but surfaces NO user-visible
error, contradicting the claim that it surfaces one. -/
theorem C8_franchise_missing_source_silent :
    (load_franchise_data emptyWorld).df = []
    ∧ (load_franchise_data emptyWorld).errors = [] := by decide

/-- C8 amended: a missing source file never raises and yields an empty
result from either loader; the plant loader surfaces a user-visible
error, but the franchise loader (with neither snapshot nor source CSV)
returns the empty frame silently. -/
theorem C8_missing_source_empty_result :
    (∀ w : World, w.usinaInput = .absent → load_usina_data w = ⟨[], [errUsinaMissing]⟩)
    ∧ (∀ w : World, w.franchiseData = .absent → w.franchiseInput = .absent →
        load_franchise_data w = ⟨[], w, [], false⟩) := by
  constructor
  · intro w h
    simp [load_usina_data, h]
  · intro w h1 h2
    simp [load_franchise_data, h1, loadFranchiseFromCsv, h2]

/-- Witness for C8 at the empty world. -/
theorem C8_missing_source_empty_result_witness :
    load_usina_data emptyWorld = ⟨[], [errUsinaMissing]⟩
    ∧ load_franchise_data emptyWorld = ⟨[], emptyWorld, [], false⟩ :=
  ⟨C8_missing_source_empty_result.1 emptyWorld rfl,
   C8_missing_source_empty_result.2 emptyWorld rfl rfl⟩

/-- C9 counterexample: the claim says the fixed query filters on the
coordinate fields (plural) being non-null, but the query carries no
IS NOT NULL condition on the longitude field
`NumCoordEEmpreendimento` (nor on its alias `lng_str`). -/
theorem C9_no_longitude_nonnull_filter :
    strContains ANEEL_QUERY "\"NumCoordEEmpreendimento\" IS NOT NULL" = false
    ∧ strContains ANEEL_QUERY "lng_str IS NOT NULL" = false := by decide

/-- C9 amended: the fixed query descriptor is an HTTP GET whose `sql`
parameter is the fixed query string, which filters rows by the region
(state) code `SigUF = PA` and by the latitude coordinate field
`NumCoordNEmpreendimento` being non-null, and carries LIMIT 80000. -/
theorem C9_query_descriptor :
    aneelRequest.method = "GET"
    ∧ aneelRequest.url = ANEEL_URL
    ∧ aneelRequest.params = [("sql", ANEEL_QUERY)]
    ∧ aneelRequest.timeout = 10
    ∧ strContains ANEEL_QUERY "\"SigUF\" = \x27PA\x27" = true
    ∧ strContains ANEEL_QUERY "\"NumCoordNEmpreendimento\" IS NOT NULL" = true
    ∧ strContains ANEEL_QUERY "LIMIT 80000" = true := by
  refine ⟨rfl, rfl, rfl, rfl, by decide, by decide, by decide⟩

/-- C10: the registry loader writes the ANEEL cache only when the
fetched frame is non-empty (any change to the world pins the cache to
the normalized fetch result), and an empty fetch leaves the world
untouched, surfaces the error and returns the empty frame. -/
theorem C10_cache_write_only_nonempty_fetch :
    (∀ (w : World) (fetched : DataFrame), (load_aneel_data w fetched).world ≠ w →
      fetched ≠ []
      ∧ (load_aneel_data w fetched).world.aneelCache = .good (process_coordinates fetched))
    ∧ (∀ (w : World) (fetched : DataFrame), fetched = [] →
        (load_aneel_data w fetched).world = w)
    ∧ (∀ (w : World) (fetched : DataFrame), fetched = [] →
        (w.aneelCache = .absent ∨ w.aneelCache = .corrupt) →
        (load_aneel_data w fetched).df = []
        ∧ errAneelEmpty ∈ (load_aneel_data w fetched).errors) := by
  refine ⟨?_, ?_, ?_⟩
  · intro w fetched hne
    cases hw : w.aneelCache with
    | good d => exact absurd (by simp [load_aneel_data, hw]) hne
    | corrupt =>
      cases fetched with
      | nil => exact absurd (by simp [load_aneel_data, hw, aneelAfterFetch]) hne
      | cons a t =>
        refine ⟨by simp, ?_⟩
        simp [load_aneel_data, hw, aneelAfterFetch]
    | absent =>
      cases fetched with
      | nil => exact absurd (by simp [load_aneel_data, hw, aneelAfterFetch]) hne
      | cons a t =>
        refine ⟨by simp, ?_⟩
        simp [load_aneel_data, hw, aneelAfterFetch]
  · intro w fetched he
    subst he
    cases hw : w.aneelCache <;> simp [load_aneel_data, hw, aneelAfterFetch]
  · intro w fetched he hc
    subst he
    rcases hc with h | h <;> simp [load_aneel_data, h, aneelAfterFetch]

/-- Witness for C10: a changed world after a non-empty fetch pins the
cache to the normalized result; an empty fetch leaves the empty world
unchanged, returns the empty frame and surfaces the error. -/
theorem C10_cache_write_only_nonempty_fetch_witness :
    (aneelRaw ≠ []
      ∧ (load_aneel_data emptyWorld aneelRaw).world.aneelCache
          = .good (process_coordinates aneelRaw))
    ∧ (load_aneel_data emptyWorld []).world = emptyWorld
    ∧ ((load_aneel_data emptyWorld []).df = []
        ∧ errAneelEmpty ∈ (load_aneel_data emptyWorld []).errors) :=
  ⟨C10_cache_write_only_nonempty_fetch.1 emptyWorld aneelRaw (by decide),
   C10_cache_write_only_nonempty_fetch.2.1 emptyWorld [] rfl,
   C10_cache_write_only_nonempty_fetch.2.2 emptyWorld [] rfl (Or.inl rfl)⟩

end MapaPaUsinas
